import Mathlib

/-!
Shallow embedding of the node-lifecycle subcommands of the scheduler-k3s
plugin (`src/plugins/scheduler-k3s/subcommands.go`): `CommandInitialize`,
`CommandClusterAdd`, `CommandClusterRemove` and `CommandSet`.

External collaborators (the command executor, the remote shell, the
Kubernetes client, the property store, the random source, the network
stack) are modelled as oracle fields of an environment record; every
observable external action is recorded in an event trace, so temporal
claims ("X never happens unless Y", "rejected before any external
command") become statements about the returned trace.  Progress logging
(`LogInfo*`) is not observable state and is omitted; `LogDebug` is kept
as an event because the parsed k3s version is observable only there.
-/

deriving instance DecidableEq for Except

namespace SchedulerK3s

/-- Result of a local (`CallExecCommand`) or remote (`CallSshCommand`)
command that could be started: captured stdout and the exit code. -/
structure CmdResult where
  stdout : String
  exitCode : Int
deriving DecidableEq

/-- One address of a network interface, as seen by the loop over
`iface.Addrs()`: a `*net.IPNet` whose `IP.To4()` is non-nil carries an
IPv4 string, anything else is skipped. -/
inductive NetAddr where
  | ipnet (ipv4 : Option String)
  | other
deriving DecidableEq

/-- A network interface: its name and its address list (`none` models a
failing `iface.Addrs()` call). -/
structure Iface where
  name : String
  addrs : Option (List NetAddr)
deriving DecidableEq

/-- The fields of a cluster node that the remove path reads: its name and
the `dokku.com/remote-host` annotation (empty when absent). -/
structure NodeInfo where
  name : String
  remoteHost : String
deriving DecidableEq

/-- Every distinct error return of the three orchestrator commands. -/
inductive Err where
  | alreadyInstalled
  | notInstalled
  | interfacesError
  | addrsError (iface : String)
  | networkConfig (iface : String)
  | callError (what : String)
  | exitError (what : String) (code : Int)
  | downloadStatus (code : Nat)
  | tempFileError
  | closeError
  | writeError
  | statError
  | emptyInstaller
  | randError
  | tokenPersist
  | touchError
  | invalidRole (role : String)
  | missingToken
  | invalidCombination
  | versionParse (stdout : String)
  | urlParseError
  | clientError
  | waitFailed
  | joinNotObserved
  | copyRegistryFailed
  | labelFailed
  | annotateFailed
  | manifestFailed (path : String)
  | getNodeFailed
  | notRemoteManaged (name : String)
  | deleteFailed
  | templateError
  | traefikWriteError
  | helmError
deriving DecidableEq

/-- Observable external actions, in the order they were attempted. -/
inductive Event where
  | exec (cmd : String) (args : List String)
  | ssh (cmd : String) (args : List String) (remoteHost : String) (asRoot : Bool) (allowUnknownHosts : Bool)
  | download (url : String)
  | setProperty (appName : String) (key : String) (value : String)
  | logDebug (msg : String)
  | touchFile (path : String)
  | writeFile (path : String)
  | helmInstall
  | apiApplyManifest (path : String)
  | apiLabelNode (name : String) (key : String) (value : String)
  | apiAnnotateNode (name : String) (key : String) (value : String)
  | apiGetNode (name : String)
  | apiDeleteNode (name : String)
  | apiWaitForNode (name : String) (retryCount : Nat)
  | copyRegistry (remoteHost : String)
deriving DecidableEq

/-- Whether an event is a remote (ssh) command. -/
def Event.isSsh : Event → Bool
  | .ssh _ _ _ _ _ => true
  | _ => false

/-- Number of remote (ssh) commands in a trace. -/
def sshCount (tr : List Event) : Nat :=
  (tr.filter Event.isSsh).length

/-- Whether an event belongs to the membership-reconciliation phase:
registry copy, node labeling or origin annotation. -/
def Event.isReconcile : Event → Bool
  | .apiLabelNode _ _ _ => true
  | .apiAnnotateNode _ _ _ => true
  | .copyRegistry _ => true
  | _ => false

/-- Number of reconciliation actions (registry copy, labeling,
annotation) in a trace. -/
def reconcileCount (tr : List Event) : Nat :=
  (tr.filter Event.isReconcile).length

/-- Model of Go `strings.ToLower` restricted to ASCII (the only case the
generated names exercise): an upper-case ASCII letter moves down by 32,
every other character is unchanged. -/
def lowerChar (c : Char) : Char :=
  if 65 ≤ c.toNat ∧ c.toNat ≤ 90 then Char.ofNat (c.toNat + 32) else c

/-- String version of `lowerChar`, applied character by character. -/
def toLowerStr (s : String) : String :=
  ⟨s.data.map lowerChar⟩

/-- Model of Go `strings.ReplaceAll(s, ".", "-")`: both pattern and
replacement are single characters, so it is a character map. -/
def dotToDash (c : Char) : Char :=
  if c = '.' then '-' else c

/-- String version of `dotToDash`, applied character by character. -/
def replaceDots (s : String) : String :=
  ⟨s.data.map dotToDash⟩

/-- Upper-case hexadecimal digit for a value below 16, as produced by Go
`fmt.Sprintf` with the X verb. -/
def hexDigitU (n : Nat) : Char :=
  if n < 10 then Char.ofNat (48 + n) else Char.ofNat (55 + n)

/-- The two hexadecimal digits of one byte. -/
def hexByteU (b : Nat) : List Char :=
  [hexDigitU (b / 16), hexDigitU (b % 16)]

/-- Character list of Go `fmt.Sprintf` with the X verb on a byte slice:
two upper-case hexadecimal digits per byte. -/
def hexUpperL : List Nat → List Char
  | [] => []
  | b :: bs => hexByteU b ++ hexUpperL bs

/-- String form of `hexUpperL`. -/
def hexUpper (bs : List Nat) : String :=
  ⟨hexUpperL bs⟩

/-- Model of Go `strings.Split` for a single-character separator (the
source only splits on a newline and on a space), working on the
character list.  Like Go, it returns at least one (possibly empty)
field. -/
def splitChar (sep : Char) : List Char → List (List Char)
  | [] => [[]]
  | c :: rest =>
    let r := splitChar sep rest
    if c = sep then [] :: r
    else (c :: r.headD []) :: r.tail

/-- `strings.Split` on strings, single-character separator. -/
def splitStr (sep : Char) (s : String) : List String :=
  (splitChar sep s.data).map (fun l => ⟨l⟩)

/-- Node-name derivation shared by bootstrap and join
(`subcommands.go` lines 159-165 and 450-456): format
`ip-<seed>-<hex of 5 random bytes>`, lower-cased, dots replaced by
dashes. -/
def nodeNameFor (seed : String) (bs : List Nat) : String :=
  replaceDots (toLowerStr ("ip-" ++ seed ++ "-" ++ hexUpper bs))

/-- The token generated at first bootstrap: lower-cased upper-hex
encoding of 5 random bytes. -/
def generatedToken (bs : List Nat) : String :=
  toLowerStr (hexUpper bs)

/-- Scan of one interface's address list, mirroring the inner loop of the
server-ip resolution: every IPv4 address overwrites the accumulator. -/
def scanAddrs (acc : String) : List NetAddr → String
  | [] => acc
  | NetAddr.ipnet (some ip) :: rest => scanAddrs ip rest
  | _ :: rest => scanAddrs acc rest

/-- The interface loop of `CommandInitialize` (lines 43-58) and
`CommandClusterAdd` (lines 307-322): for every interface whose name
matches the configured one, fetch its addresses (an `Addrs()` failure
aborts) and let each IPv4 address overwrite `serverIp`. -/
def resolveServerIpAux (ni : String) : List Iface → String → Except Err String
  | [], acc => .ok acc
  | i :: rest, acc =>
    if i.name = ni then
      match i.addrs with
      | none => .error (.addrsError ni)
      | some l => resolveServerIpAux ni rest (scanAddrs acc l)
    else resolveServerIpAux ni rest acc

/-- Server-ip resolution, starting from the empty string. -/
def resolveServerIp (ifaces : List Iface) (ni : String) : Except Err String :=
  resolveServerIpAux ni ifaces ""

/-- Specification-side view: all IPv4 addresses carried by interfaces
whose name matches the configured one, in scan order. -/
def ipv4sOf (ifaces : List Iface) (ni : String) : List String :=
  ((ifaces.filter (fun i => i.name = ni)).map
    (fun i => (i.addrs.getD []).filterMap
      (fun a => match a with
        | NetAddr.ipnet (some ip) => some ip
        | _ => none))).flatten

/-- Whether `Addrs()` succeeds on every matching interface. -/
def matchingAddrsOk (ifaces : List Iface) (ni : String) : Bool :=
  (ifaces.filter (fun i => i.name = ni)).all (fun i => i.addrs.isSome)

/-- Labels applied to a server node. -/
def ServerLabels : List (String × String) :=
  [("svccontroller.k3s.cattle.io/enablelb", "true")]

/-- Labels applied to a worker node. -/
def WorkerLabels : List (String × String) :=
  [("node-role.kubernetes.io/role", "worker")]

/-- The fixed manifest list applied during bootstrap: name, version,
path. -/
def KubernetesManifests : List (String × String × String) :=
  [("system-upgrader", "0.13.2",
    "https://github.com/rancher/system-upgrade-controller/releases/download/v0.13.2/system-upgrade-controller.yaml")]

/-- Fixed path of the registry credential file. -/
def RegistryConfigPath : String := "/etc/rancher/k3s/registries.yaml"

/-- `CommandSet` (lines 718-721): calls `common.CommandPropertySet`
(modelled as the write event plus an outcome the caller never sees) and
returns nil unconditionally. -/
def CommandSet (appName : String) (property : String) (value : String)
    (writeOutcome : Bool) : Option Err × List Event :=
  (none, [Event.setProperty appName property value])

/-- The recurring call-then-check pattern of a local command: the
attempt is recorded, a failed call aborts with `callError`, a non-zero
exit code aborts with `exitError`, otherwise the continuation runs. -/
def step (ev : Event) (r : Option CmdResult) (what : String)
    (k : CmdResult → Except Err Unit × List Event) : Except Err Unit × List Event :=
  match r with
  | none => (.error (.callError what), [ev])
  | some c =>
    if c.exitCode ≠ 0 then (.error (.exitError what c.exitCode), [ev])
    else ((k c).1, ev :: (k c).2)

/-- The same pattern for a remote command. -/
def sshStep (cmd : String) (args : List String) (remoteHost : String)
    (asRoot : Bool) (allow : Bool) (r : Option CmdResult) (what : String)
    (k : CmdResult → Except Err Unit × List Event) : Except Err Unit × List Event :=
  step (Event.ssh cmd args remoteHost asRoot allow) r what k

/-- Manifest loop of bootstrap (lines 234-242): apply each manifest in
order, aborting on the first failure. -/
def applyManifests (apply : String → Bool) : List (String × String × String) → Option Err × List Event
  | [] => (none, [])
  | (_, _, path) :: rest =>
    if apply path then
      ((applyManifests apply rest).1, Event.apiApplyManifest path :: (applyManifests apply rest).2)
    else (some (.manifestFailed path), [Event.apiApplyManifest path])

/-- Label loop shared by bootstrap and join: label the node with each
key/value pair, aborting on the first failure. -/
def labelNodes (label : String → String → String → Bool) (nodeName : String) :
    List (String × String) → Option Err × List Event
  | [] => (none, [])
  | (k, v) :: rest =>
    if label nodeName k v then
      ((labelNodes label nodeName rest).1,
        Event.apiLabelNode nodeName k v :: (labelNodes label nodeName rest).2)
    else (some .labelFailed, [Event.apiLabelNode nodeName k v])

/-- Environment of one `CommandInitialize` run: configuration reads,
network state, the outcome of every external call it may attempt, and
the random bytes drawn. -/
structure InitEnv where
  k3sInstalled : Bool
  networkInterface : String
  ifaces : Option (List Iface)
  aptUpdate : Option CmdResult
  aptInstall : Option CmdResult
  download : Option (Nat × String)
  tempName : String
  createTempOk : Bool
  closeOk : Bool
  writeOk : Bool
  statSize : Option Nat
  globalToken : String
  randTokenOk : Bool
  randToken : List Nat
  setOutcome : Bool
  randNameOk : Bool
  randName : List Nat
  installer : Option CmdResult
  touchOk : Bool
  setfacl : Option CmdResult
  clientOk : Bool
  applyManifest : String → Bool
  labelNode : String → String → String → Bool
  templateOk : Bool
  traefikWriteOk : Bool
  helmOk : Bool

/-- Bootstrap installer flag set (lines 167-193). -/
def buildInitArgs (nodeName : String) (token : String) (taint : Bool) : List String :=
  let args := ["--cluster-init",
    "--disable", "local-storage",
    "--etcd-expose-metrics",
    "--flannel-backend=wireguard-native",
    "--kube-controller-manager-arg", "bind-address=0.0.0.0",
    "--kube-proxy-arg", "metrics-bind-address=0.0.0.0",
    "--kube-scheduler-arg", "bind-address=0.0.0.0",
    "--kube-controller-manager-arg", "terminated-pod-gc-threshold=10",
    "--node-name", nodeName,
    "--write-kubeconfig-mode", "0644",
    "--token", token]
  if taint then args ++ ["--node-taint", "CriticalAddonsOnly=true:NoSchedule"] else args

/-- Traefik-configuration and helm-chart tail of bootstrap (lines
260-275). -/
def initCharts (env : InitEnv) : Except Err Unit × List Event :=
  if ¬ env.templateOk then (.error .templateError, [])
  else if ¬ env.traefikWriteOk then
    (.error .traefikWriteError,
      [Event.writeFile "/var/lib/rancher/k3s/server/manifests/traefik-custom.yaml"])
  else if ¬ env.helmOk then
    (.error .helmError,
      [Event.writeFile "/var/lib/rancher/k3s/server/manifests/traefik-custom.yaml",
       Event.helmInstall])
  else (.ok (),
      [Event.writeFile "/var/lib/rancher/k3s/server/manifests/traefik-custom.yaml",
       Event.helmInstall])

/-- Kubernetes-facing tail of bootstrap (lines 229-275): client
creation, manifest application, server labels, then the traefik and
helm part. -/
def initReconcile (env : InitEnv) (nodeName : String) : Except Err Unit × List Event :=
  if ¬ env.clientOk then (.error .clientError, [])
  else
    match (applyManifests env.applyManifest KubernetesManifests).1 with
    | some e => (.error e, (applyManifests env.applyManifest KubernetesManifests).2)
    | none =>
      match (labelNodes env.labelNode nodeName ServerLabels).1 with
      | some e =>
        (.error e, (applyManifests env.applyManifest KubernetesManifests).2 ++
          (labelNodes env.labelNode nodeName ServerLabels).2)
      | none =>
        ((initCharts env).1,
          (applyManifests env.applyManifest KubernetesManifests).2 ++
            (labelNodes env.labelNode nodeName ServerLabels).2 ++ (initCharts env).2)

/-- Bootstrap tail after a successful installer run (lines 208-279):
registry file creation and ACL, then the Kubernetes-facing part. -/
def initAfterInstaller (env : InitEnv) (nodeName : String) : Except Err Unit × List Event :=
  if ¬ env.touchOk then (.error .touchError, [Event.touchFile RegistryConfigPath])
  else
    ((step (Event.exec "setfacl" ["-m", "user:dokku:rwx", RegistryConfigPath])
        env.setfacl "setfacl" fun _ => initReconcile env nodeName).1,
      Event.touchFile RegistryConfigPath ::
        (step (Event.exec "setfacl" ["-m", "user:dokku:rwx", RegistryConfigPath])
          env.setfacl "setfacl" fun _ => initReconcile env nodeName).2)

/-- Node-name allocation and installer invocation of bootstrap (lines
159-206).  `token` is the variable of line 145: when it was empty, the
generated replacement was bound to a new inner variable by the source's
short variable declaration, so this outer value still flows into the
installer flags. -/
def initName (env : InitEnv) (taint : Bool) (serverIp : String) (token : String) :
    Except Err Unit × List Event :=
  if ¬ env.randNameOk then (.error .randError, [])
  else
    let nodeName := nodeNameFor serverIp env.randName
    step (Event.exec env.tempName (buildInitArgs nodeName token taint))
      env.installer "k3s installer" fun _ =>
        initAfterInstaller env nodeName

/-- Token step of bootstrap (lines 145-157): when no token is persisted,
generate one, persist it through `CommandSet` (whose discarded outcome
makes the error branch dead), and continue. -/
def initToken (env : InitEnv) (taint : Bool) (serverIp : String) : Except Err Unit × List Event :=
  let token := env.globalToken
  if token.length = 0 then
    if ¬ env.randTokenOk then (.error .randError, [])
    else
      let fresh := generatedToken env.randToken
      let set := CommandSet "--global" "token" fresh env.setOutcome
      match set.1 with
      | some _ => (.error .tokenPersist, set.2)
      | none => ((initName env taint serverIp token).1, set.2 ++ (initName env taint serverIp token).2)
  else initName env taint serverIp token

/-- Bootstrap body after server-ip resolution (lines 64-143 and on):
apt update, dependency install, installer download and temp-file
handling, then the token step. -/
def initAfterIp (env : InitEnv) (taint : Bool) (serverIp : String) : Except Err Unit × List Event :=
  step (Event.exec "apt-get" ["update"]) env.aptUpdate "apt-get update" fun _ =>
  step (Event.exec "apt-get"
      ["-y", "install", "ca-certificates", "curl", "open-iscsi", "nfs-common", "wireguard"])
    env.aptInstall "apt-get install" fun _ =>
    match env.download with
    | none => (.error (.callError "k3s installer download"), [Event.download "https://get.k3s.io"])
    | some (status, _) =>
      if status ≠ 200 then (.error (.downloadStatus status), [Event.download "https://get.k3s.io"])
      else
        let rest :=
          if ¬ env.createTempOk then (Except.error Err.tempFileError, ([] : List Event))
          else if ¬ env.closeOk then (.error .closeError, [])
          else if ¬ env.writeOk then (.error .writeError, [])
          else
            match env.statSize with
            | none => (.error .statError, [])
            | some size =>
              if size = 0 then (.error .emptyInstaller, [])
              else initToken env taint serverIp
        (rest.1, Event.download "https://get.k3s.io" :: rest.2)

/-- `CommandInitialize` (lines 21-280): refuse a second bootstrap,
resolve the server ip on the configured interface, then run the
bootstrap body. -/
def CommandInitialize (env : InitEnv) (taintScheduling : Bool) : Except Err Unit × List Event :=
  if env.k3sInstalled then (.error .alreadyInstalled, [])
  else
    match env.ifaces with
    | none => (.error .interfacesError, [])
    | some l =>
      match resolveServerIp l env.networkInterface with
      | .error e => (.error e, [])
      | .ok serverIp =>
        if serverIp.length = 0 then (.error (.networkConfig env.networkInterface), [])
        else initAfterIp env taintScheduling serverIp

/-- Environment of one `CommandClusterAdd` run. -/
structure AddEnv where
  k3sInstalled : Bool
  globalToken : String
  networkInterface : String
  ifaces : Option (List Iface)
  k3sVersion : Option CmdResult
  sshAptUpdate : Option CmdResult
  sshAptInstall : Option CmdResult
  sshCurl : Option CmdResult
  sshChmod : Option CmdResult
  parsedHostname : Option String
  randNameOk : Bool
  randName : List Nat
  sshInstaller : Option CmdResult
  clientOk : Bool
  waitResult : Option (List NodeInfo)
  copyOk : Bool
  labelNode : String → String → String → Bool
  annotateOk : Bool

/-- Join installer flag set (lines 458-502): common flags, then the
server or worker role block, then the optional taint. -/
def buildJoinArgs (role : String) (nodeName : String) (serverIp : String)
    (token : String) (taint : Bool) : List String :=
  let args := ["--disable", "local-storage",
    "--flannel-backend=wireguard-native",
    "--node-name", nodeName,
    "--server", "https://" ++ serverIp ++ ":6443",
    "--token", token]
  let args :=
    if role = "server" then
      ["server"] ++ args ++ ["--etcd-expose-metrics",
        "--kube-controller-manager-arg", "bind-address=0.0.0.0",
        "--kube-proxy-arg", "metrics-bind-address=0.0.0.0",
        "--kube-scheduler-arg", "bind-address=0.0.0.0",
        "--kube-controller-manager-arg", "terminated-pod-gc-threshold=10",
        "--write-kubeconfig-mode", "0644"]
    else args ++ ["--disable-etcd", "--disable-apiserver",
      "--disable-controller-manager", "--disable-scheduler",
      "--kube-proxy-arg", "metrics-bind-address=0.0.0.0"]
  if taint then args ++ ["--node-taint", "CriticalAddonsOnly=true:NoSchedule"] else args

/-- Join tail after a successful remote installer run (lines 520-575):
wait for the node, copy the registry file, label, annotate. -/
def addPost (env : AddEnv) (role : String) (remoteHost : String) (nodeName : String) :
    Except Err Unit × List Event :=
  if ¬ env.clientOk then (.error .clientError, [])
  else
    let waitEv := Event.apiWaitForNode nodeName 20
    match env.waitResult with
    | none => (.error .waitFailed, [waitEv])
    | some nodes =>
      if nodes.length = 0 then (.error .joinNotObserved, [waitEv])
      else
        let copyEv := Event.copyRegistry remoteHost
        let p :=
          if ¬ env.copyOk then (Except.error Err.copyRegistryFailed, [copyEv])
          else
            let labels := if role = "worker" then WorkerLabels else ServerLabels
            match labelNodes env.labelNode nodeName labels with
            | (some e, tr) => (.error e, copyEv :: tr)
            | (none, tr) =>
              let annEv := Event.apiAnnotateNode (nodes.headD ⟨"", ""⟩).name
                "dokku.com/remote-host" remoteHost
              if ¬ env.annotateOk then (.error .annotateFailed, copyEv :: tr ++ [annEv])
              else (.ok (), copyEv :: tr ++ [annEv])
        (p.1, waitEv :: p.2)

/-- Remote preparation and installer invocation of join (lines
366-518): apt update/install, installer download and chmod over ssh,
hostname parsing, node-name allocation, remote installer run. -/
def addSsh (env : AddEnv) (role : String) (remoteHost : String) (allow : Bool)
    (taint : Bool) (serverIp : String) : Except Err Unit × List Event :=
  sshStep "apt-get" ["update"] remoteHost true allow env.sshAptUpdate
    "apt-get update over ssh" fun _ =>
  sshStep "apt-get"
      ["-y", "install", "ca-certificates", "curl", "open-iscsi", "nfs-common", "wireguard"]
      remoteHost true allow env.sshAptInstall "apt-get install over ssh" fun _ =>
  sshStep "curl" ["-o /tmp/k3s-installer.sh", "https://get.k3s.io"] remoteHost false allow
    env.sshCurl "curl over ssh" fun _ =>
  sshStep "chmod" ["0755", "/tmp/k3s-installer.sh"] remoteHost false allow
    env.sshChmod "chmod over ssh" fun _ =>
    match env.parsedHostname with
    | none => (.error .urlParseError, [])
    | some host =>
      if ¬ env.randNameOk then (.error .randError, [])
      else
        let nodeName := nodeNameFor host env.randName
        sshStep "/tmp/k3s-installer.sh"
          (buildJoinArgs role nodeName serverIp env.globalToken taint)
          remoteHost true allow env.sshInstaller "k3s installer over ssh" fun _ =>
            addPost env role remoteHost nodeName

/-- Join body after server-ip resolution (lines 341-364): local version
query with the fixed 4-field parse, then the remote phase. -/
def addAfterIp (env : AddEnv) (role : String) (remoteHost : String) (allow : Bool)
    (taint : Bool) (serverIp : String) : Except Err Unit × List Event :=
  step (Event.exec "k3s" ["--version"]) env.k3sVersion "k3s version" fun c =>
    let parse :=
      match splitStr '\n' c.stdout with
      | [] => Except.ok ""
      | l0 :: _ =>
        let parts := splitStr ' ' l0
        if parts.length ≠ 4 then Except.error (Err.versionParse c.stdout)
        else Except.ok (parts.getD 2 "")
    match parse with
    | .error e => (.error e, [])
    | .ok ver =>
      ((addSsh env role remoteHost allow taint serverIp).1,
        Event.logDebug ("k3s version: " ++ ver) ::
          (addSsh env role remoteHost allow taint serverIp).2)

/-- `CommandClusterAdd` (lines 283-576): precondition checks in source
order (installed, role, token, taint/role combination), server-ip
resolution, then the join body. -/
def CommandClusterAdd (env : AddEnv) (role : String) (remoteHost : String)
    (allowUnknownHosts : Bool) (taintScheduling : Bool) : Except Err Unit × List Event :=
  if ¬ env.k3sInstalled then (.error .notInstalled, [])
  else if role ≠ "server" ∧ role ≠ "worker" then (.error (.invalidRole role), [])
  else if env.globalToken.length = 0 then (.error .missingToken, [])
  else if taintScheduling ∧ role = "worker" then (.error .invalidCombination, [])
  else
    match env.ifaces with
    | none => (.error .interfacesError, [])
    | some l =>
      match resolveServerIp l env.networkInterface with
      | .error e => (.error e, [])
      | .ok serverIp =>
        if serverIp.length = 0 then (.error (.networkConfig env.networkInterface), [])
        else addAfterIp env role remoteHost allowUnknownHosts taintScheduling serverIp

/-- Environment of one `CommandClusterRemove` run. -/
structure RemoveEnv where
  k3sInstalled : Bool
  clientOk : Bool
  getNode : Option NodeInfo
  sshUninstall : Option CmdResult
  deleteOk : Bool

/-- `CommandClusterRemove` (lines 634-697): fetch the node, refuse one
without a remote-host annotation, uninstall over ssh, and only then
delete the node object. -/
def CommandClusterRemove (env : RemoveEnv) (nodeName : String) : Except Err Unit × List Event :=
  if ¬ env.k3sInstalled then (.error .notInstalled, [])
  else if ¬ env.clientOk then (.error .clientError, [])
  else
    let getEv := Event.apiGetNode nodeName
    match env.getNode with
    | none => (.error .getNodeFailed, [getEv])
    | some node =>
      if node.remoteHost = "" then (.error (.notRemoteManaged nodeName), [getEv])
      else
        let p := sshStep "/usr/local/bin/k3s-uninstall.sh" [] node.remoteHost true true
          env.sshUninstall "k3s uninstall over ssh" fun _ =>
            if ¬ env.deleteOk then (.error .deleteFailed, [Event.apiDeleteNode nodeName])
            else (.ok (), [Event.apiDeleteNode nodeName])
        (p.1, getEv :: p.2)

/-- A bootstrap environment with no persisted token in which every
external call succeeds; the generated token would be `"abcdef0123"`. -/
def envInitNoToken : InitEnv := {
  k3sInstalled := false
  networkInterface := "eth0"
  ifaces := some [⟨"eth0", some [NetAddr.ipnet (some "10.0.0.5")]⟩]
  aptUpdate := some ⟨"", 0⟩
  aptInstall := some ⟨"", 0⟩
  download := some (200, "#!/bin/sh")
  tempName := "/tmp/k3s-install-script"
  createTempOk := true
  closeOk := true
  writeOk := true
  statSize := some 9
  globalToken := ""
  randTokenOk := true
  randToken := [171, 205, 239, 1, 35]
  setOutcome := true
  randNameOk := true
  randName := [1, 2, 3, 4, 5]
  installer := some ⟨"", 0⟩
  touchOk := true
  setfacl := some ⟨"", 0⟩
  clientOk := true
  applyManifest := fun _ => true
  labelNode := fun _ _ _ => true
  templateOk := true
  traefikWriteOk := true
  helmOk := true }

/-- A join environment whose configured interface carries two IPv4
addresses, with every external call succeeding. -/
def envAddTwoIps : AddEnv := {
  k3sInstalled := true
  globalToken := "abc123"
  networkInterface := "eth0"
  ifaces := some [⟨"eth0",
    some [NetAddr.ipnet (some "10.0.0.1"), NetAddr.ipnet (some "10.0.0.2")]⟩]
  k3sVersion := some ⟨"k3s version v1.28.4+k3s2 (hash)\n", 0⟩
  sshAptUpdate := some ⟨"", 0⟩
  sshAptInstall := some ⟨"", 0⟩
  sshCurl := some ⟨"", 0⟩
  sshChmod := some ⟨"", 0⟩
  parsedHostname := some "worker1.example.com"
  randNameOk := true
  randName := [1, 2, 3, 4, 5]
  sshInstaller := some ⟨"", 0⟩
  clientOk := true
  waitResult := some [⟨"ip-worker1-example-com-0102030405", ""⟩]
  copyOk := true
  labelNode := fun _ _ _ => true
  annotateOk := true }

/-- The same join environment with a single IPv4 address and an empty
persisted token. -/
def envAddNoToken : AddEnv :=
  { envAddTwoIps with
    globalToken := ""
    ifaces := some [⟨"eth0", some [NetAddr.ipnet (some "10.0.0.5")]⟩] }

/-- The join environment with one IPv4 address and token `"abc123"`. -/
def envAddOneIp : AddEnv :=
  { envAddTwoIps with
    ifaces := some [⟨"eth0", some [NetAddr.ipnet (some "10.0.0.5")]⟩] }

/-- The join environment in which the post-join wait returns an empty
node list. -/
def envAddEmptyWait : AddEnv :=
  { envAddOneIp with waitResult := some [] }

/-- The join environment whose local version query returns a first line
of three fields instead of four. -/
def envAddBadVersion : AddEnv :=
  { envAddOneIp with k3sVersion := some ⟨"k3s version broken\n", 0⟩ }

/-- A removal environment for a remotely managed node in which every
call succeeds. -/
def envRemoveOk : RemoveEnv := {
  k3sInstalled := true
  clientOk := true
  getNode := some ⟨"node1", "ssh://root@w1.example.com"⟩
  sshUninstall := some ⟨"", 0⟩
  deleteOk := true }

/-- A removal environment whose node carries no remote-host
annotation. -/
def envRemoveLocal : RemoveEnv :=
  { envRemoveOk with getNode := some ⟨"node1", ""⟩ }

/-- A bootstrap environment whose configured interface carries the same
two IPv4 addresses as `envAddTwoIps`. -/
def envInitTwoIps : InitEnv :=
  { envInitNoToken with
    globalToken := "abc123"
    ifaces := some [⟨"eth0",
      some [NetAddr.ipnet (some "10.0.0.1"), NetAddr.ipnet (some "10.0.0.2")]⟩] }

/-- The last IPv4 address carried by interfaces matching the configured
name — the one the source keeps, since each match overwrites the
previous. -/
def lastMatchingIPv4 (ifaces : List Iface) (ni : String) : Option String :=
  (ipv4sOf ifaces ni).getLast?

/-- The first matching IPv4 address — the one the specification names
as the winner. -/
def firstMatchingIPv4 (ifaces : List Iface) (ni : String) : Option String :=
  (ipv4sOf ifaces ni).head?

/-- Whether a flag/value pair occurs at consecutive positions of an
argument list. -/
def hasPair (flag : String) (value : String) : List String → Bool
  | a :: b :: rest => (a == flag && b == value) || hasPair flag value (b :: rest)
  | _ => false

/-- Whether a string has no upper-case ASCII letter and no dot: the part
of DNS-label validity that the node-name claim states. -/
def noUpperNoDot (s : String) : Bool :=
  s.data.all (fun c => (¬ (65 ≤ c.toNat ∧ c.toNat ≤ 90) ∧ c ≠ '.' : Bool))

/-- Whether every character is a lower-case hexadecimal digit. -/
def allLowerHex (s : String) : Bool :=
  s.data.all (fun c => ((48 ≤ c.toNat ∧ c.toNat ≤ 57) ∨ (97 ≤ c.toNat ∧ c.toNat ≤ 102) : Bool))

/-! Theorems. -/

/-- A non-empty string has non-zero length (the source tests emptiness
through `len`). -/
theorem length_ne_zero_of_ne_empty (s : String) (h : s ≠ "") : ¬ s.length = 0 := by
  cases s with
  | mk l =>
    cases l with
    | nil => exact absurd rfl h
    | cons c cs => simp [String.length]

/-- C5: a removal run whose fetched node carries an empty remote-host
annotation returns the not-remote-managed error and its trace holds the
node fetch only — in particular zero ssh commands. -/
theorem C5_remove_refuses_unmanaged (env : RemoveEnv) (name : String) (node : NodeInfo)
    (h1 : env.k3sInstalled = true) (h2 : env.clientOk = true)
    (h3 : env.getNode = some node) (h4 : node.remoteHost = "") :
    CommandClusterRemove env name = (.error (.notRemoteManaged name), [Event.apiGetNode name]) ∧
    sshCount (CommandClusterRemove env name).2 = 0 := by
  simp [CommandClusterRemove, h1, h2, h3, h4, sshCount, Event.isSsh]

theorem C5_remove_refuses_unmanaged_witness :
    CommandClusterRemove envRemoveLocal "node1" =
      (.error (.notRemoteManaged "node1"), [Event.apiGetNode "node1"]) ∧
    sshCount (CommandClusterRemove envRemoveLocal "node1").2 = 0 :=
  C5_remove_refuses_unmanaged envRemoveLocal "node1" ⟨"node1", ""⟩ rfl rfl rfl rfl

/-- C4 counterexample: a worker join with taint scheduling requested but
no persisted token is rejected with the missing-token error, not the
invalid-combination error the claim names. -/
theorem C4_counterexample :
    CommandClusterAdd envAddNoToken "worker" "ssh://root@worker1.example.com" true true =
      (.error .missingToken, []) ∧
    Err.missingToken ≠ Err.invalidCombination := by
  exact ⟨by decide, by decide⟩

/-- C4 amended: every precondition failure of a join — k3s not
installed, invalid role, missing token, taint with the worker role — is
rejected before any external command (the trace is empty), with the
errors produced in that source order; worker-plus-taint yields the
invalid-combination error only once the earlier checks pass. -/
theorem C4_precondition_rejection (env : AddEnv) (role remoteHost : String)
    (allow taint : Bool)
    (h : env.k3sInstalled = false ∨ (role ≠ "server" ∧ role ≠ "worker") ∨
      env.globalToken = "" ∨ (taint = true ∧ role = "worker")) :
    (CommandClusterAdd env role remoteHost allow taint).2 = [] ∧
    CommandClusterAdd env role remoteHost allow taint =
      (if env.k3sInstalled = false then (.error .notInstalled, [])
       else if role ≠ "server" ∧ role ≠ "worker" then (.error (.invalidRole role), [])
       else if env.globalToken = "" then (.error .missingToken, [])
       else (.error .invalidCombination, [])) := by
  cases h1 : env.k3sInstalled with
  | false => simp [CommandClusterAdd, h1]
  | true =>
    by_cases h2 : role ≠ "server" ∧ role ≠ "worker"
    · simp [CommandClusterAdd, h1, h2]
    · by_cases h3 : env.globalToken = ""
      · simp [CommandClusterAdd, h1, h2, h3]
      · rcases h with h | h | h | h
        · rw [h1] at h; cases h
        · exact absurd h h2
        · exact absurd h h3
        · simp [CommandClusterAdd, h1, h2, h3, h.1, h.2,
            length_ne_zero_of_ne_empty env.globalToken h3]

theorem C4_precondition_rejection_witness :
    (CommandClusterAdd envAddOneIp "worker" "ssh://root@worker1.example.com" true true).2 = [] ∧
    CommandClusterAdd envAddOneIp "worker" "ssh://root@worker1.example.com" true true =
      (if envAddOneIp.k3sInstalled = false then (.error .notInstalled, [])
       else if ("worker" : String) ≠ "server" ∧ ("worker" : String) ≠ "worker" then
         (.error (.invalidRole "worker"), [])
       else if envAddOneIp.globalToken = "" then (.error .missingToken, [])
       else (.error .invalidCombination, [])) :=
  C4_precondition_rejection envAddOneIp "worker" "ssh://root@worker1.example.com" true true
    (Or.inr (Or.inr (Or.inr ⟨rfl, rfl⟩)))

/-- C3: in a removal run the node-delete call appears in the trace only
when the remote uninstall command was started and exited with code 0 on
a remotely managed node, and then the uninstall ssh command precedes the
delete in the trace. -/
theorem C3_delete_only_after_uninstall (env : RemoveEnv) (name : String)
    (h : Event.apiDeleteNode name ∈ (CommandClusterRemove env name).2) :
    env.k3sInstalled = true ∧ env.clientOk = true ∧
    Option.map CmdResult.exitCode env.sshUninstall = some 0 ∧
    (Option.map NodeInfo.remoteHost env.getNode).getD "" ≠ "" ∧
    (CommandClusterRemove env name).2 =
      [Event.apiGetNode name,
       Event.ssh "/usr/local/bin/k3s-uninstall.sh" []
         ((Option.map NodeInfo.remoteHost env.getNode).getD "") true true,
       Event.apiDeleteNode name] := by
  cases h1 : env.k3sInstalled with
  | false => simp [CommandClusterRemove, h1] at h
  | true =>
  cases h2 : env.clientOk with
  | false => simp [CommandClusterRemove, h1, h2] at h
  | true =>
  cases hg : env.getNode with
  | none => simp [CommandClusterRemove, h1, h2, hg] at h
  | some node =>
    by_cases hr : node.remoteHost = ""
    · simp [CommandClusterRemove, h1, h2, hg, hr] at h
    cases hu : env.sshUninstall with
    | none => simp [CommandClusterRemove, sshStep, step, h1, h2, hg, hr, hu] at h
    | some c =>
      by_cases hc : c.exitCode = 0
      · cases hd : env.deleteOk <;>
          simp [CommandClusterRemove, sshStep, step, h1, h2, hg, hr, hu, hc, hd]
      · simp [CommandClusterRemove, sshStep, step, h1, h2, hg, hr, hu, hc] at h

theorem C3_delete_only_after_uninstall_witness :
    envRemoveOk.k3sInstalled = true ∧ envRemoveOk.clientOk = true ∧
    Option.map CmdResult.exitCode envRemoveOk.sshUninstall = some 0 ∧
    (Option.map NodeInfo.remoteHost envRemoveOk.getNode).getD "" ≠ "" ∧
    (CommandClusterRemove envRemoveOk "node1").2 =
      [Event.apiGetNode "node1",
       Event.ssh "/usr/local/bin/k3s-uninstall.sh" []
         ((Option.map NodeInfo.remoteHost envRemoveOk.getNode).getD "") true true,
       Event.apiDeleteNode "node1"] :=
  C3_delete_only_after_uninstall envRemoveOk "node1" (by decide)

/-- C1 (the token-shadowing slip at lines 145-157): in a bootstrap run
with no persisted token, the newly generated token `"abcdef0123"` is the
one persisted through the property write, yet the installer is invoked
with an empty `--token` value, because the source rebinds `token` with a
short variable declaration inside the if block. -/
theorem C1_token_shadowing :
    Event.setProperty "--global" "token" "abcdef0123" ∈ (CommandInitialize envInitNoToken false).2 ∧
    Event.exec "/tmp/k3s-install-script"
      (buildInitArgs (nodeNameFor "10.0.0.5" [1, 2, 3, 4, 5]) "" false) ∈
        (CommandInitialize envInitNoToken false).2 ∧
    hasPair "--token" "" (buildInitArgs (nodeNameFor "10.0.0.5" [1, 2, 3, 4, 5]) "" false) = true ∧
    generatedToken [171, 205, 239, 1, 35] = "abcdef0123" ∧
    ("abcdef0123" : String) ≠ "" := by
  exact ⟨by decide, by decide, by decide, by decide, by decide⟩

/-- The step combinator cannot produce the token-persist error unless
its continuation does. -/
theorem step_fst_ne_tokenPersist (ev : Event) (r : Option CmdResult) (what : String)
    (k : CmdResult → Except Err Unit × List Event)
    (hk : ∀ c, (k c).1 ≠ .error .tokenPersist) :
    (step ev r what k).1 ≠ .error .tokenPersist := by
  cases r with
  | none => simp [step]
  | some c =>
    by_cases hc : c.exitCode = 0
    · simp [step, hc, hk c]
    · simp [step, hc]

/-- The manifest loop only fails with a manifest error. -/
theorem applyManifests_fst_ne (f : String → Bool) (l : List (String × String × String)) :
    (applyManifests f l).1 ≠ some Err.tokenPersist := by
  induction l with
  | nil => simp [applyManifests]
  | cons hd tl ih =>
    obtain ⟨n, v, p⟩ := hd
    by_cases hp : f p
    · simp [applyManifests, hp, ih]
    · simp [applyManifests, hp]

/-- The label loop only fails with a label error. -/
theorem labelNodes_fst_ne (f : String → String → String → Bool) (nodeName : String)
    (l : List (String × String)) :
    (labelNodes f nodeName l).1 ≠ some Err.tokenPersist := by
  induction l with
  | nil => simp [labelNodes]
  | cons hd tl ih =>
    obtain ⟨k, v⟩ := hd
    by_cases hp : f nodeName k v
    · simp [labelNodes, hp, ih]
    · simp [labelNodes, hp]

/-- The Kubernetes-facing bootstrap tail cannot produce the
token-persist error. -/
theorem initReconcile_fst_ne (env : InitEnv) (nodeName : String) :
    (initReconcile env nodeName).1 ≠ .error .tokenPersist := by
  unfold initReconcile
  split
  · simp
  · split
    next e heq =>
      have hm := applyManifests_fst_ne env.applyManifest KubernetesManifests
      rw [heq] at hm
      simpa using hm
    next =>
      split
      next e heq =>
        have hl := labelNodes_fst_ne env.labelNode nodeName ServerLabels
        rw [heq] at hl
        simpa using hl
      next =>
        unfold initCharts
        split
        · simp
        · split
          · simp
          · split <;> simp

/-- The bootstrap tail cannot produce the token-persist error. -/
theorem initAfterInstaller_fst_ne (env : InitEnv) (nodeName : String) :
    (initAfterInstaller env nodeName).1 ≠ .error .tokenPersist := by
  unfold initAfterInstaller
  split
  · simp
  · exact step_fst_ne_tokenPersist _ _ _ _ (fun _ => initReconcile_fst_ne env nodeName)

/-- The node-name and installer phase of bootstrap cannot produce the
token-persist error. -/
theorem initName_fst_ne (env : InitEnv) (taint : Bool) (serverIp token : String) :
    (initName env taint serverIp token).1 ≠ .error .tokenPersist := by
  unfold initName
  split
  · simp
  · exact step_fst_ne_tokenPersist _ _ _ _ (fun _ => initAfterInstaller_fst_ne env _)

/-- The token step of bootstrap cannot produce the token-persist error:
the only branch that would is guarded by the discarded outcome of
`CommandSet`, which never reports failure. -/
theorem initToken_fst_ne (env : InitEnv) (taint : Bool) (serverIp : String) :
    (initToken env taint serverIp).1 ≠ .error .tokenPersist := by
  unfold initToken
  by_cases h : env.globalToken.length = 0
  · by_cases hr : env.randTokenOk
    · simpa [h, hr, CommandSet] using initName_fst_ne env taint serverIp env.globalToken
    · simp [h, hr]
  · simpa [h] using initName_fst_ne env taint serverIp env.globalToken

/-- The bootstrap body cannot produce the token-persist error. -/
theorem initAfterIp_fst_ne (env : InitEnv) (taint : Bool) (serverIp : String) :
    (initAfterIp env taint serverIp).1 ≠ .error .tokenPersist := by
  unfold initAfterIp
  refine step_fst_ne_tokenPersist _ _ _ _ fun _ => ?_
  refine step_fst_ne_tokenPersist _ _ _ _ fun _ => ?_
  split
  · simp
  · split
    · simp
    · split
      · simp
      · split
        · simp
        · split
          · simp
          · split
            · simp
            · split
              · simp
              · exact initToken_fst_ne env taint serverIp

/-- The interface scan only fails with an address error. -/
theorem resolveServerIpAux_ne (ni : String) (l : List Iface) (acc : String) :
    resolveServerIpAux ni l acc ≠ .error .tokenPersist := by
  induction l generalizing acc with
  | nil => simp [resolveServerIpAux]
  | cons i rest ih =>
    unfold resolveServerIpAux
    split
    · split
      · simp
      · exact ih _
    · exact ih _

/-- C10: `CommandSet` reports success for every input and every
property-store outcome, so the bootstrap branch that would surface a
token-persistence failure is unreachable: no bootstrap run returns the
token-persist error. -/
theorem C10_set_swallows_outcome (appName property value : String) (outcome : Bool)
    (env : InitEnv) (taint : Bool) :
    (CommandSet appName property value outcome).1 = none ∧
    (CommandInitialize env taint).1 ≠ Except.error Err.tokenPersist := by
  refine ⟨rfl, ?_⟩
  unfold CommandInitialize
  split
  · simp
  · split
    · simp
    next l hif =>
      split
      next e heq =>
        have hr := resolveServerIpAux_ne env.networkInterface l ""
        unfold resolveServerIp at heq
        rw [heq] at hr
        simpa using hr
      next serverIp heq =>
        split
        · simp
        · exact initAfterIp_fst_ne env taint _

/-- Dropping to the tail shifts the default of a last-element read. -/
theorem getLast?_getD_cons (x d : α) (xs : List α) :
    (x :: xs).getLast?.getD d = xs.getLast?.getD x := by
  cases h : xs.getLast? with
  | none =>
    cases xs with
    | nil => simp
    | cons b bs => simp at h
  | some v => simp [List.getLast?_cons, h]

/-- A last-element read over an appended list reads the second list
first, falling back to the first. -/
theorem getLast?_getD_append (xs ys : List α) (d : α) :
    (xs ++ ys).getLast?.getD d = ys.getLast?.getD (xs.getLast?.getD d) := by
  rw [List.getLast?_append]
  cases h : ys.getLast? <;> simp [h, Option.or]

/-- The address scan keeps the last IPv4 address of the list, falling
back to its accumulator. -/
theorem scanAddrs_eq (acc : String) (l : List NetAddr) :
    scanAddrs acc l =
      ((l.filterMap fun a => match a with
        | NetAddr.ipnet (some ip) => some ip
        | _ => none).getLast?).getD acc := by
  induction l generalizing acc with
  | nil => simp [scanAddrs]
  | cons a rest ih =>
    cases a with
    | ipnet o =>
      cases o with
      | none => simpa [scanAddrs] using ih acc
      | some ip => simp [scanAddrs, ih ip, getLast?_getD_cons]
    | other => simpa [scanAddrs] using ih acc

/-- When every matching interface reports its addresses, the interface
scan succeeds and keeps the last matching IPv4 address, falling back to
its accumulator. -/
theorem resolveServerIpAux_eq (ni : String) (l : List Iface) (acc : String)
    (h : matchingAddrsOk l ni = true) :
    resolveServerIpAux ni l acc = .ok ((ipv4sOf l ni).getLast?.getD acc) := by
  induction l generalizing acc with
  | nil => simp [resolveServerIpAux, ipv4sOf]
  | cons i rest ih =>
    by_cases hn : i.name = ni
    · have hm : (i.addrs).isSome = true ∧ matchingAddrsOk rest ni = true := by
        have h2 := h
        unfold matchingAddrsOk at h2
        rw [List.filter_cons_of_pos (by simpa using hn)] at h2
        simpa [matchingAddrsOk] using h2
      obtain ⟨hs, hrest⟩ := hm
      obtain ⟨as, has⟩ := Option.isSome_iff_exists.mp hs
      unfold resolveServerIpAux
      rw [if_pos hn, has]
      show resolveServerIpAux ni rest (scanAddrs acc as) = _
      rw [ih _ hrest, scanAddrs_eq]
      have : ipv4sOf (i :: rest) ni =
          (as.filterMap fun a => match a with
            | NetAddr.ipnet (some ip) => some ip
            | _ => none) ++ ipv4sOf rest ni := by
        unfold ipv4sOf
        rw [List.filter_cons_of_pos (by simpa using hn)]
        simp [has]
      rw [this, getLast?_getD_append]
    · have hrest : matchingAddrsOk rest ni = true := by
        have h2 := h
        unfold matchingAddrsOk at h2
        rw [List.filter_cons_of_neg (by simpa using hn)] at h2
        exact h2
      have : ipv4sOf (i :: rest) ni = ipv4sOf rest ni := by
        unfold ipv4sOf
        rw [List.filter_cons_of_neg (by simpa using hn)]
      unfold resolveServerIpAux
      rw [if_neg hn, ih _ hrest, this]

/-- C2 counterexample: with two IPv4 addresses on the configured
interface the join passes the second (last) address, not the first, as
the `--server` target of the remote installer. -/
theorem C2_counterexample :
    firstMatchingIPv4
      [⟨"eth0", some [NetAddr.ipnet (some "10.0.0.1"), NetAddr.ipnet (some "10.0.0.2")]⟩]
      "eth0" = some "10.0.0.1" ∧
    Event.ssh "/tmp/k3s-installer.sh"
      (buildJoinArgs "server" (nodeNameFor "worker1.example.com" [1, 2, 3, 4, 5])
        "10.0.0.2" "abc123" false)
      "ssh://root@worker1.example.com" true true ∈
      (CommandClusterAdd envAddTwoIps "server" "ssh://root@worker1.example.com" true false).2 ∧
    hasPair "--server" "https://10.0.0.2:6443"
      (buildJoinArgs "server" (nodeNameFor "worker1.example.com" [1, 2, 3, 4, 5])
        "10.0.0.2" "abc123" false) = true ∧
    hasPair "--server" "https://10.0.0.1:6443"
      (buildJoinArgs "server" (nodeNameFor "worker1.example.com" [1, 2, 3, 4, 5])
        "10.0.0.2" "abc123" false) = false := by
  exact ⟨by decide, by decide, by decide, by decide⟩

/-- C2 amended: bootstrap and join select the last matching IPv4
address of the configured interface as the server ip (not the first);
when no IPv4 address is present both fail with the network-config error
before any external command — their trace is empty. -/
theorem C2_last_ipv4_wins (l : List Iface) (ni : String) (envI : InitEnv) (taint : Bool)
    (envA : AddEnv) (role remoteHost : String) (allow taintA : Bool)
    (hok : matchingAddrsOk l ni = true)
    (hne : ∀ s ∈ ipv4sOf l ni, s ≠ "")
    (hI1 : envI.k3sInstalled = false) (hI2 : envI.ifaces = some l)
    (hI3 : envI.networkInterface = ni)
    (hA1 : envA.k3sInstalled = true) (hA2 : envA.ifaces = some l)
    (hA3 : envA.networkInterface = ni)
    (hrole : role = "server" ∨ role = "worker") (htok : envA.globalToken ≠ "")
    (htaint : taintA = true → role = "server") :
    CommandInitialize envI taint =
      (match lastMatchingIPv4 l ni with
       | none => (.error (.networkConfig ni), [])
       | some ip => initAfterIp envI taint ip) ∧
    CommandClusterAdd envA role remoteHost allow taintA =
      (match lastMatchingIPv4 l ni with
       | none => (.error (.networkConfig ni), [])
       | some ip => addAfterIp envA role remoteHost allow taintA ip) := by
  have hres : resolveServerIp l ni = .ok ((ipv4sOf l ni).getLast?.getD "") :=
    resolveServerIpAux_eq ni l "" hok
  have hrolec : ¬(role ≠ "server" ∧ role ≠ "worker") := by
    rcases hrole with h | h <;> simp [h]
  have hcomb : ¬(taintA = true ∧ role = "worker") := by
    rintro ⟨ht, hw⟩
    have hs := htaint ht
    rw [hw] at hs
    exact absurd hs (by decide)
  cases hlast : (ipv4sOf l ni).getLast? with
  | none =>
    rw [hlast] at hres
    constructor
    · simp [CommandInitialize, hI1, hI2, hI3, hres, lastMatchingIPv4, hlast]
    · simp [CommandClusterAdd, hA1, hA2, hA3, hrolec, hcomb,
        length_ne_zero_of_ne_empty envA.globalToken htok, hres, lastMatchingIPv4, hlast]
  | some ip =>
    rw [hlast] at hres
    have hip : ip ≠ "" := hne ip (List.mem_of_getLast?_eq_some hlast)
    constructor
    · simp [CommandInitialize, hI1, hI2, hI3, hres, lastMatchingIPv4, hlast,
        length_ne_zero_of_ne_empty ip hip]
    · simp [CommandClusterAdd, hA1, hA2, hA3, hrolec, hcomb,
        length_ne_zero_of_ne_empty envA.globalToken htok, hres, lastMatchingIPv4, hlast,
        length_ne_zero_of_ne_empty ip hip]

theorem C2_last_ipv4_wins_witness :
    CommandInitialize envInitTwoIps false =
      (match lastMatchingIPv4
        [⟨"eth0", some [NetAddr.ipnet (some "10.0.0.1"), NetAddr.ipnet (some "10.0.0.2")]⟩]
        "eth0" with
       | none => (.error (.networkConfig "eth0"), [])
       | some ip => initAfterIp envInitTwoIps false ip) ∧
    CommandClusterAdd envAddTwoIps "server" "ssh://root@worker1.example.com" true false =
      (match lastMatchingIPv4
        [⟨"eth0", some [NetAddr.ipnet (some "10.0.0.1"), NetAddr.ipnet (some "10.0.0.2")]⟩]
        "eth0" with
       | none => (.error (.networkConfig "eth0"), [])
       | some ip => addAfterIp envAddTwoIps "server" "ssh://root@worker1.example.com" true false ip) :=
  C2_last_ipv4_wins
    [⟨"eth0", some [NetAddr.ipnet (some "10.0.0.1"), NetAddr.ipnet (some "10.0.0.2")]⟩]
    "eth0" envInitTwoIps false envAddTwoIps "server" "ssh://root@worker1.example.com" true false
    (by decide) (by decide) rfl rfl rfl rfl rfl rfl (Or.inl rfl) (by decide) (fun _ => rfl)

/-- A join whose preconditions pass and whose interface resolution
yields a non-empty ip proceeds to the body with that ip. -/
theorem add_to_afterIp (env : AddEnv) (role remoteHost : String) (allow taint : Bool)
    (l : List Iface) (ip : String)
    (h1 : env.k3sInstalled = true) (h2 : env.ifaces = some l)
    (hrole : role = "server" ∨ role = "worker") (htok : env.globalToken ≠ "")
    (htaint : taint = true → role = "server")
    (hres : resolveServerIp l env.networkInterface = .ok ip) (hip : ip ≠ "") :
    CommandClusterAdd env role remoteHost allow taint =
      addAfterIp env role remoteHost allow taint ip := by
  have hrolec : ¬(role ≠ "server" ∧ role ≠ "worker") := by
    rcases hrole with h | h <;> simp [h]
  have hcomb : ¬(taint = true ∧ role = "worker") := by
    rintro ⟨ht, hw⟩
    have hs := htaint ht
    rw [hw] at hs
    exact absurd hs (by decide)
  simp [CommandClusterAdd, h1, h2, hrolec, hcomb,
    length_ne_zero_of_ne_empty env.globalToken htok, hres,
    length_ne_zero_of_ne_empty ip hip]

/-- The join body runs the local version query first: a first line that
does not split into exactly 4 space-separated fields is a hard error
with no remote command attempted; otherwise the third field is the
version that the debug event records, and the remote phase follows. -/
theorem addAfterIp_version (env : AddEnv) (role remoteHost : String) (allow taint : Bool)
    (ip : String) (vr : CmdResult) (l0 : String) (ls : List String)
    (hv : env.k3sVersion = some vr) (he : vr.exitCode = 0)
    (hsplit : splitStr '\n' vr.stdout = l0 :: ls) :
    addAfterIp env role remoteHost allow taint ip =
      if (splitStr ' ' l0).length = 4 then
        ((addSsh env role remoteHost allow taint ip).1,
          Event.exec "k3s" ["--version"] ::
            Event.logDebug ("k3s version: " ++ (splitStr ' ' l0).getD 2 "") ::
            (addSsh env role remoteHost allow taint ip).2)
      else (.error (.versionParse vr.stdout), [Event.exec "k3s" ["--version"]]) := by
  by_cases hlen : (splitStr ' ' l0).length = 4
  · simp [addAfterIp, step, hv, he, hsplit, hlen]
  · simp [addAfterIp, step, hv, he, hsplit, hlen]

/-- When the four remote preparation commands, the hostname parse, the
random draw and the remote installer all succeed, the remote phase runs
exactly these ssh commands and continues with the join tail. -/
theorem addSsh_eq (env : AddEnv) (role remoteHost : String) (allow taint : Bool)
    (ip host : String) (r1 r2 r3 r4 r5 : CmdResult)
    (h1 : env.sshAptUpdate = some r1) (e1 : r1.exitCode = 0)
    (h2 : env.sshAptInstall = some r2) (e2 : r2.exitCode = 0)
    (h3 : env.sshCurl = some r3) (e3 : r3.exitCode = 0)
    (h4 : env.sshChmod = some r4) (e4 : r4.exitCode = 0)
    (hh : env.parsedHostname = some host) (hrand : env.randNameOk = true)
    (h5 : env.sshInstaller = some r5) (e5 : r5.exitCode = 0) :
    addSsh env role remoteHost allow taint ip =
      ((addPost env role remoteHost (nodeNameFor host env.randName)).1,
        Event.ssh "apt-get" ["update"] remoteHost true allow ::
        Event.ssh "apt-get"
          ["-y", "install", "ca-certificates", "curl", "open-iscsi", "nfs-common", "wireguard"]
          remoteHost true allow ::
        Event.ssh "curl" ["-o /tmp/k3s-installer.sh", "https://get.k3s.io"] remoteHost false allow ::
        Event.ssh "chmod" ["0755", "/tmp/k3s-installer.sh"] remoteHost false allow ::
        Event.ssh "/tmp/k3s-installer.sh"
          (buildJoinArgs role (nodeNameFor host env.randName) ip env.globalToken taint)
          remoteHost true allow ::
        (addPost env role remoteHost (nodeNameFor host env.randName)).2) := by
  simp [addSsh, sshStep, step, h1, e1, h2, e2, h3, e3, h4, e4, hh, hrand, h5, e5]

/-- When the post-join wait returns the empty node list, the join tail
fails with the distinct join-not-observed error right away. -/
theorem addPost_emptyWait (env : AddEnv) (role remoteHost nodeName : String)
    (hcl : env.clientOk = true) (hw : env.waitResult = some []) :
    addPost env role remoteHost nodeName =
      (.error .joinNotObserved, [Event.apiWaitForNode nodeName 20]) := by
  simp [addPost, hcl, hw]

/-- C6: when the post-join wait returns an empty node list without
error, the join fails with the join-not-observed error — distinct from
the transport-failure error of the wait — and its trace holds no
registry copy, no node labeling and no origin annotation. -/
theorem C6_empty_wait_aborts_reconcile (env : AddEnv) (role remoteHost : String)
    (allow taint : Bool) (l : List Iface) (ip host : String) (vr : CmdResult)
    (l0 : String) (ls : List String) (r1 r2 r3 r4 r5 : CmdResult)
    (hA1 : env.k3sInstalled = true) (hA2 : env.ifaces = some l)
    (hrole : role = "server" ∨ role = "worker") (htok : env.globalToken ≠ "")
    (htaint : taint = true → role = "server")
    (hres : resolveServerIp l env.networkInterface = .ok ip) (hip : ip ≠ "")
    (hv : env.k3sVersion = some vr) (he : vr.exitCode = 0)
    (hsplit : splitStr '\n' vr.stdout = l0 :: ls)
    (hlen : (splitStr ' ' l0).length = 4)
    (h1 : env.sshAptUpdate = some r1) (e1 : r1.exitCode = 0)
    (h2 : env.sshAptInstall = some r2) (e2 : r2.exitCode = 0)
    (h3 : env.sshCurl = some r3) (e3 : r3.exitCode = 0)
    (h4 : env.sshChmod = some r4) (e4 : r4.exitCode = 0)
    (hh : env.parsedHostname = some host) (hrand : env.randNameOk = true)
    (h5 : env.sshInstaller = some r5) (e5 : r5.exitCode = 0)
    (hcl : env.clientOk = true) (hw : env.waitResult = some []) :
    (CommandClusterAdd env role remoteHost allow taint).1 = .error .joinNotObserved ∧
    reconcileCount (CommandClusterAdd env role remoteHost allow taint).2 = 0 ∧
    Err.joinNotObserved ≠ Err.waitFailed := by
  have eq1 := add_to_afterIp env role remoteHost allow taint l ip hA1 hA2 hrole htok htaint hres hip
  have eq2 := addAfterIp_version env role remoteHost allow taint ip vr l0 ls hv he hsplit
  have eq3 := addSsh_eq env role remoteHost allow taint ip host r1 r2 r3 r4 r5
    h1 e1 h2 e2 h3 e3 h4 e4 hh hrand h5 e5
  have eq4 := addPost_emptyWait env role remoteHost (nodeNameFor host env.randName) hcl hw
  rw [eq1, eq2, if_pos hlen, eq3, eq4]
  refine ⟨rfl, ?_, by decide⟩
  simp [reconcileCount, Event.isReconcile]

theorem C6_empty_wait_aborts_reconcile_witness :
    (CommandClusterAdd envAddEmptyWait "worker" "ssh://root@worker1.example.com" true false).1 =
      .error .joinNotObserved ∧
    reconcileCount
      (CommandClusterAdd envAddEmptyWait "worker" "ssh://root@worker1.example.com" true false).2 = 0 ∧
    Err.joinNotObserved ≠ Err.waitFailed :=
  C6_empty_wait_aborts_reconcile envAddEmptyWait "worker" "ssh://root@worker1.example.com"
    true false [⟨"eth0", some [NetAddr.ipnet (some "10.0.0.5")]⟩] "10.0.0.5"
    "worker1.example.com" ⟨"k3s version v1.28.4+k3s2 (hash)\n", 0⟩
    "k3s version v1.28.4+k3s2 (hash)" [""] ⟨"", 0⟩ ⟨"", 0⟩ ⟨"", 0⟩ ⟨"", 0⟩ ⟨"", 0⟩
    rfl rfl (Or.inr rfl) (by decide) (by simp) (by decide) (by decide)
    rfl rfl (by decide) (by decide) rfl rfl rfl rfl rfl rfl rfl rfl rfl rfl rfl rfl rfl rfl

/-- Strings with different head characters differ. -/
theorem ne_of_head (s t : String) (h : s.data.head? ≠ t.data.head?) : t ≠ s := by
  intro he
  rw [he] at h
  exact h rfl

/-- Every generated node name starts with the letter i. -/
theorem nodeNameFor_head (seed : String) (bs : List Nat) :
    (nodeNameFor seed bs).data.head? = some 'i' := by
  have h : ("ip-" ++ seed ++ "-" ++ hexUpper bs).data =
      'i' :: 'p' :: '-' :: (seed.data ++ ("-" ++ hexUpper bs).data) := by
    rw [String.data_append, String.data_append, String.data_append]
    simp
  unfold nodeNameFor replaceDots toLowerStr
  rw [h]
  simp [lowerChar, dotToDash]

/-- A generated node name is never the taint flag. -/
theorem taint_ne_nodeName (seed : String) (bs : List Nat) :
    ("--node-taint" : String) ≠ nodeNameFor seed bs := by
  apply ne_of_head
  rw [nodeNameFor_head]
  decide

/-- The server target is never the taint flag. -/
theorem taint_ne_url (ip : String) :
    ("--node-taint" : String) ≠ "https://" ++ ip ++ ":6443" := by
  apply ne_of_head
  rw [String.data_append, String.data_append]
  simp

/-- C7: a worker join with taint scheduling is rejected outright, and a
worker join that reaches the remote installer passes it exactly the
worker flag set: local-storage disabled, the wireguard backend, the
node name, the `--server https://ip:6443` pair, the `--token` pair, the
four control-plane disable flags and the proxy metrics flag — and no
`--node-taint` flag. -/
theorem C7_worker_installer_flags (env : AddEnv) (remoteHost : String) (allow : Bool)
    (l : List Iface) (ip host : String) (vr : CmdResult) (l0 : String) (ls : List String)
    (r1 r2 r3 r4 r5 : CmdResult)
    (hA1 : env.k3sInstalled = true) (hA2 : env.ifaces = some l)
    (htok : env.globalToken ≠ "")
    (hres : resolveServerIp l env.networkInterface = .ok ip) (hip : ip ≠ "")
    (hv : env.k3sVersion = some vr) (he : vr.exitCode = 0)
    (hsplit : splitStr '\n' vr.stdout = l0 :: ls)
    (hlen : (splitStr ' ' l0).length = 4)
    (h1 : env.sshAptUpdate = some r1) (e1 : r1.exitCode = 0)
    (h2 : env.sshAptInstall = some r2) (e2 : r2.exitCode = 0)
    (h3 : env.sshCurl = some r3) (e3 : r3.exitCode = 0)
    (h4 : env.sshChmod = some r4) (e4 : r4.exitCode = 0)
    (hh : env.parsedHostname = some host) (hrand : env.randNameOk = true)
    (h5 : env.sshInstaller = some r5) (e5 : r5.exitCode = 0)
    (htk : env.globalToken ≠ "--node-taint") :
    CommandClusterAdd env "worker" remoteHost allow true = (.error .invalidCombination, []) ∧
    Event.ssh "/tmp/k3s-installer.sh"
        (buildJoinArgs "worker" (nodeNameFor host env.randName) ip env.globalToken false)
        remoteHost true allow ∈
      (CommandClusterAdd env "worker" remoteHost allow false).2 ∧
    buildJoinArgs "worker" (nodeNameFor host env.randName) ip env.globalToken false =
      ["--disable", "local-storage", "--flannel-backend=wireguard-native",
       "--node-name", nodeNameFor host env.randName,
       "--server", "https://" ++ ip ++ ":6443",
       "--token", env.globalToken,
       "--disable-etcd", "--disable-apiserver", "--disable-controller-manager",
       "--disable-scheduler", "--kube-proxy-arg", "metrics-bind-address=0.0.0.0"] ∧
    ("--disable-etcd" : String) ∈
      buildJoinArgs "worker" (nodeNameFor host env.randName) ip env.globalToken false ∧
    ("--disable-apiserver" : String) ∈
      buildJoinArgs "worker" (nodeNameFor host env.randName) ip env.globalToken false ∧
    ("--disable-controller-manager" : String) ∈
      buildJoinArgs "worker" (nodeNameFor host env.randName) ip env.globalToken false ∧
    ("--disable-scheduler" : String) ∈
      buildJoinArgs "worker" (nodeNameFor host env.randName) ip env.globalToken false ∧
    hasPair "--server" ("https://" ++ ip ++ ":6443")
      (buildJoinArgs "worker" (nodeNameFor host env.randName) ip env.globalToken false) = true ∧
    hasPair "--token" env.globalToken
      (buildJoinArgs "worker" (nodeNameFor host env.randName) ip env.globalToken false) = true ∧
    ("--node-taint" : String) ∉
      buildJoinArgs "worker" (nodeNameFor host env.randName) ip env.globalToken false := by
  have hargs : buildJoinArgs "worker" (nodeNameFor host env.randName) ip env.globalToken false =
      ["--disable", "local-storage", "--flannel-backend=wireguard-native",
       "--node-name", nodeNameFor host env.randName,
       "--server", "https://" ++ ip ++ ":6443",
       "--token", env.globalToken,
       "--disable-etcd", "--disable-apiserver", "--disable-controller-manager",
       "--disable-scheduler", "--kube-proxy-arg", "metrics-bind-address=0.0.0.0"] := by
    simp [buildJoinArgs]
  refine ⟨?_, ?_, hargs, ?_, ?_, ?_, ?_, ?_, ?_, ?_⟩
  · simp [CommandClusterAdd, hA1, length_ne_zero_of_ne_empty env.globalToken htok]
  · rw [add_to_afterIp env "worker" remoteHost allow false l ip hA1 hA2 (Or.inr rfl) htok
        (by simp) hres hip,
      addAfterIp_version env "worker" remoteHost allow false ip vr l0 ls hv he hsplit,
      if_pos hlen,
      addSsh_eq env "worker" remoteHost allow false ip host r1 r2 r3 r4 r5
        h1 e1 h2 e2 h3 e3 h4 e4 hh hrand h5 e5]
    simp
  · rw [hargs]; simp
  · rw [hargs]; simp
  · rw [hargs]; simp
  · rw [hargs]; simp
  · rw [hargs]; simp [hasPair]
  · rw [hargs]; simp [hasPair]
  · rw [hargs]
    simp [taint_ne_nodeName host env.randName, taint_ne_url ip, Ne.symm htk]

theorem C7_worker_installer_flags_witness :
    CommandClusterAdd envAddOneIp "worker" "ssh://root@worker1.example.com" true true =
      (.error .invalidCombination, []) ∧
    Event.ssh "/tmp/k3s-installer.sh"
        (buildJoinArgs "worker" (nodeNameFor "worker1.example.com" [1, 2, 3, 4, 5])
          "10.0.0.5" "abc123" false)
        "ssh://root@worker1.example.com" true true ∈
      (CommandClusterAdd envAddOneIp "worker" "ssh://root@worker1.example.com" true false).2 ∧
    buildJoinArgs "worker" (nodeNameFor "worker1.example.com" [1, 2, 3, 4, 5])
        "10.0.0.5" "abc123" false =
      ["--disable", "local-storage", "--flannel-backend=wireguard-native",
       "--node-name", nodeNameFor "worker1.example.com" [1, 2, 3, 4, 5],
       "--server", "https://" ++ "10.0.0.5" ++ ":6443",
       "--token", "abc123",
       "--disable-etcd", "--disable-apiserver", "--disable-controller-manager",
       "--disable-scheduler", "--kube-proxy-arg", "metrics-bind-address=0.0.0.0"] ∧
    ("--disable-etcd" : String) ∈
      buildJoinArgs "worker" (nodeNameFor "worker1.example.com" [1, 2, 3, 4, 5])
        "10.0.0.5" "abc123" false ∧
    ("--disable-apiserver" : String) ∈
      buildJoinArgs "worker" (nodeNameFor "worker1.example.com" [1, 2, 3, 4, 5])
        "10.0.0.5" "abc123" false ∧
    ("--disable-controller-manager" : String) ∈
      buildJoinArgs "worker" (nodeNameFor "worker1.example.com" [1, 2, 3, 4, 5])
        "10.0.0.5" "abc123" false ∧
    ("--disable-scheduler" : String) ∈
      buildJoinArgs "worker" (nodeNameFor "worker1.example.com" [1, 2, 3, 4, 5])
        "10.0.0.5" "abc123" false ∧
    hasPair "--server" ("https://" ++ "10.0.0.5" ++ ":6443")
      (buildJoinArgs "worker" (nodeNameFor "worker1.example.com" [1, 2, 3, 4, 5])
        "10.0.0.5" "abc123" false) = true ∧
    hasPair "--token" "abc123"
      (buildJoinArgs "worker" (nodeNameFor "worker1.example.com" [1, 2, 3, 4, 5])
        "10.0.0.5" "abc123" false) = true ∧
    ("--node-taint" : String) ∉
      buildJoinArgs "worker" (nodeNameFor "worker1.example.com" [1, 2, 3, 4, 5])
        "10.0.0.5" "abc123" false :=
  C7_worker_installer_flags envAddOneIp "ssh://root@worker1.example.com" true
    [⟨"eth0", some [NetAddr.ipnet (some "10.0.0.5")]⟩] "10.0.0.5"
    "worker1.example.com" ⟨"k3s version v1.28.4+k3s2 (hash)\n", 0⟩
    "k3s version v1.28.4+k3s2 (hash)" [""] ⟨"", 0⟩ ⟨"", 0⟩ ⟨"", 0⟩ ⟨"", 0⟩ ⟨"", 0⟩
    rfl rfl (by decide) (by decide) (by decide) rfl rfl (by decide) (by decide)
    rfl rfl rfl rfl rfl rfl rfl rfl rfl rfl rfl rfl (by decide)

/-- C8: the join parses the local version output by splitting its first
line on spaces; anything but exactly 4 fields is a hard error with no
remote command in the trace (only the local version query), and with 4
fields the third one is the version the debug event records before the
remote phase starts. -/
theorem C8_version_field_count (env : AddEnv) (role remoteHost : String)
    (allow taint : Bool) (l : List Iface) (ip : String) (vr : CmdResult)
    (l0 : String) (ls : List String)
    (hA1 : env.k3sInstalled = true) (hA2 : env.ifaces = some l)
    (hrole : role = "server" ∨ role = "worker") (htok : env.globalToken ≠ "")
    (htaint : taint = true → role = "server")
    (hres : resolveServerIp l env.networkInterface = .ok ip) (hip : ip ≠ "")
    (hv : env.k3sVersion = some vr) (he : vr.exitCode = 0)
    (hsplit : splitStr '\n' vr.stdout = l0 :: ls) :
    CommandClusterAdd env role remoteHost allow taint =
      (if (splitStr ' ' l0).length = 4 then
        ((addSsh env role remoteHost allow taint ip).1,
          Event.exec "k3s" ["--version"] ::
            Event.logDebug ("k3s version: " ++ (splitStr ' ' l0).getD 2 "") ::
            (addSsh env role remoteHost allow taint ip).2)
      else (.error (.versionParse vr.stdout), [Event.exec "k3s" ["--version"]])) ∧
    sshCount [Event.exec "k3s" ["--version"]] = 0 := by
  rw [add_to_afterIp env role remoteHost allow taint l ip hA1 hA2 hrole htok htaint hres hip,
    addAfterIp_version env role remoteHost allow taint ip vr l0 ls hv he hsplit]
  exact ⟨rfl, by decide⟩

theorem C8_version_field_count_witness :
    CommandClusterAdd envAddBadVersion "worker" "ssh://root@worker1.example.com" true false =
      (if (splitStr ' ' "k3s version broken").length = 4 then
        ((addSsh envAddBadVersion "worker" "ssh://root@worker1.example.com" true false "10.0.0.5").1,
          Event.exec "k3s" ["--version"] ::
            Event.logDebug
              ("k3s version: " ++ (splitStr ' ' "k3s version broken").getD 2 "") ::
            (addSsh envAddBadVersion "worker" "ssh://root@worker1.example.com" true false
              "10.0.0.5").2)
      else (.error (.versionParse "k3s version broken\n"), [Event.exec "k3s" ["--version"]])) ∧
    sshCount [Event.exec "k3s" ["--version"]] = 0 :=
  C8_version_field_count envAddBadVersion "worker" "ssh://root@worker1.example.com" true false
    [⟨"eth0", some [NetAddr.ipnet (some "10.0.0.5")]⟩] "10.0.0.5"
    ⟨"k3s version broken\n", 0⟩ "k3s version broken" [""]
    rfl rfl (Or.inr rfl) (by decide) (by simp) (by decide) (by decide)
    rfl rfl (by decide)

/-- Valid code points below the surrogate range round-trip through
`Char.ofNat`. -/
theorem charOfNat_toNat (n : Nat) (h : n < 55296) : (Char.ofNat n).toNat = n := by
  have hv : n.isValidChar := Or.inl h
  simp only [Char.ofNat, hv, dif_pos, Char.ofNatAux, Char.toNat]
  rfl

/-- Characters with different code points differ. -/
theorem char_ne_of_toNat (c d : Char) (h : c.toNat ≠ d.toNat) : c ≠ d :=
  fun he => h (by rw [he])

/-- Lower-casing then dot-replacement leaves no upper-case ASCII letter
and no dot, whatever the input character. -/
theorem lower_dot_char_ok (c : Char) :
    (¬ (65 ≤ (dotToDash (lowerChar c)).toNat ∧ (dotToDash (lowerChar c)).toNat ≤ 90) ∧
      dotToDash (lowerChar c) ≠ '.' : Bool) = true := by
  by_cases hc : 65 ≤ c.toNat ∧ c.toNat ≤ 90
  · have hx : (Char.ofNat (c.toNat + 32)).toNat = c.toNat + 32 :=
      charOfNat_toNat _ (by omega)
    have hdot : ('.').toNat = 46 := rfl
    have hxdot : Char.ofNat (c.toNat + 32) ≠ '.' :=
      char_ne_of_toNat _ _ (by rw [hx, hdot]; omega)
    rw [lowerChar, if_pos hc, dotToDash, if_neg hxdot]
    simp only [decide_eq_true_eq]
    exact ⟨by rw [hx]; omega, hxdot⟩
  · rw [lowerChar, if_neg hc]
    by_cases hd : c = '.'
    · rw [dotToDash, if_pos hd]
      decide
    · rw [dotToDash, if_neg hd]
      simp only [decide_eq_true_eq]
      exact ⟨hc, hd⟩

/-- Generated node names carry no upper-case ASCII letter and no
dot. -/
theorem noUpperNoDot_nodeName (seed : String) (bs : List Nat) :
    noUpperNoDot (nodeNameFor seed bs) = true := by
  unfold noUpperNoDot nodeNameFor replaceDots toLowerStr
  rw [show (⟨(String.mk (("ip-" ++ seed ++ "-" ++ hexUpper bs).data.map lowerChar)).data.map
      dotToDash⟩ : String).data =
    (("ip-" ++ seed ++ "-" ++ hexUpper bs).data.map lowerChar).map dotToDash from rfl]
  rw [List.all_map, List.all_map]
  refine List.all_eq_true.mpr ?_
  intro x _
  exact lower_dot_char_ok x

/-- Two hexadecimal digits per byte. -/
theorem hexUpperL_length (bs : List Nat) : (hexUpperL bs).length = 2 * bs.length := by
  induction bs with
  | nil => simp [hexUpperL]
  | cons b rest ih =>
    simp [hexUpperL, hexByteU, ih]
    omega

/-- A lower-cased hexadecimal digit of a value below 16 is a digit or a
lower-case letter a-f. -/
theorem hexDigit_lc_ok (m : Nat) (hm : m < 16) :
    ((48 ≤ (lowerChar (hexDigitU m)).toNat ∧ (lowerChar (hexDigitU m)).toNat ≤ 57) ∨
      (97 ≤ (lowerChar (hexDigitU m)).toNat ∧ (lowerChar (hexDigitU m)).toNat ≤ 102) : Bool)
      = true := by
  interval_cases m <;> decide

/-- Dot-replacement is the identity on lower-cased hexadecimal digits
of values below 16. -/
theorem hexDigit_dd_id (m : Nat) (hm : m < 16) :
    dotToDash (lowerChar (hexDigitU m)) = lowerChar (hexDigitU m) := by
  interval_cases m <;> decide

/-- Dot-replacement is the identity on the lower-cased hexadecimal
encoding of a byte list. -/
theorem dd_after_lc_hex (bs : List Nat) (h : bs.all (fun b => decide (b < 256)) = true) :
    ((hexUpperL bs).map lowerChar).map dotToDash = (hexUpperL bs).map lowerChar := by
  induction bs with
  | nil => rfl
  | cons b rest ih =>
    rw [List.all_cons] at h
    obtain ⟨hb, hrest⟩ := Bool.and_eq_true_iff.mp h
    have hb2 : b < 256 := of_decide_eq_true hb
    show ((hexByteU b ++ hexUpperL rest).map lowerChar).map dotToDash =
      (hexByteU b ++ hexUpperL rest).map lowerChar
    simp only [List.map_append]
    rw [ih hrest]
    congr 1
    simp only [hexByteU, List.map_cons, List.map_nil]
    rw [hexDigit_dd_id (b / 16) (by omega), hexDigit_dd_id (b % 16) (by omega)]

/-- The lower-cased hexadecimal encoding of a byte list is entirely
lower-case hexadecimal. -/
theorem allLowerHex_hex (bs : List Nat) (h : bs.all (fun b => decide (b < 256)) = true) :
    allLowerHex (toLowerStr (hexUpper bs)) = true := by
  unfold allLowerHex toLowerStr hexUpper
  rw [show (⟨(String.mk (hexUpperL bs)).data.map lowerChar⟩ : String).data =
    (hexUpperL bs).map lowerChar from rfl]
  rw [List.all_map]
  induction bs with
  | nil => rfl
  | cons b rest ih =>
    rw [List.all_cons] at h
    obtain ⟨hb, hrest⟩ := Bool.and_eq_true_iff.mp h
    have hb2 : b < 256 := of_decide_eq_true hb
    show (hexByteU b ++ hexUpperL rest).all _ = true
    rw [List.all_append]
    refine Bool.and_eq_true_iff.mpr ⟨?_, ih hrest⟩
    simp only [hexByteU, List.all_cons, List.all_nil]
    rw [Bool.and_eq_true_iff, Bool.and_eq_true_iff]
    exact ⟨hexDigit_lc_ok (b / 16) (by omega), ⟨hexDigit_lc_ok (b % 16) (by omega), rfl⟩⟩

/-- A generated node name is the fixed prefix, the lower-cased seed
with dots replaced, and the lower-cased hexadecimal suffix. -/
theorem nodeNameFor_decompose (seed : String) (bs : List Nat)
    (h : bs.all (fun b => decide (b < 256)) = true) :
    nodeNameFor seed bs =
      "ip-" ++ replaceDots (toLowerStr seed) ++ "-" ++ toLowerStr (hexUpper bs) := by
  unfold nodeNameFor replaceDots toLowerStr hexUpper
  apply String.ext
  show (("ip-" ++ seed ++ "-" ++ String.mk (hexUpperL bs)).data.map lowerChar).map dotToDash = _
  rw [String.data_append, String.data_append, String.data_append,
    String.data_append, String.data_append, String.data_append]
  rw [List.map_append, List.map_append, List.map_append,
    List.map_append, List.map_append, List.map_append]
  rw [dd_after_lc_hex bs h]
  rw [show (("ip-" : String).data.map lowerChar).map dotToDash = ("ip-" : String).data from rfl]
  rw [show (("-" : String).data.map lowerChar).map dotToDash = ("-" : String).data from rfl]

/-- C9: every node name produced by bootstrap (seed: the local IPv4
address) or join (seed: the parsed remote hostname) is lower-case with
no dot, has the form `ip-<seed with dots replaced>-<hex>` where the
suffix is the 10-character lower-case hexadecimal encoding of the 5
random bytes, and is the value the installer flag sets after
`--node-name` in both flag sets. -/
theorem C9_node_name_dns (seed : String) (bs : List Nat) (tok ip role : String)
    (taint : Bool)
    (hlen : bs.length = 5) (hbytes : bs.all (fun b => decide (b < 256)) = true) :
    noUpperNoDot (nodeNameFor seed bs) = true ∧
    nodeNameFor seed bs =
      "ip-" ++ replaceDots (toLowerStr seed) ++ "-" ++ toLowerStr (hexUpper bs) ∧
    (toLowerStr (hexUpper bs)).length = 10 ∧
    allLowerHex (toLowerStr (hexUpper bs)) = true ∧
    hasPair "--node-name" (nodeNameFor seed bs)
      (buildInitArgs (nodeNameFor seed bs) tok taint) = true ∧
    hasPair "--node-name" (nodeNameFor seed bs)
      (buildJoinArgs role (nodeNameFor seed bs) ip tok taint) = true := by
  refine ⟨noUpperNoDot_nodeName seed bs, nodeNameFor_decompose seed bs hbytes, ?_,
    allLowerHex_hex bs hbytes, ?_, ?_⟩
  · show ((String.mk (hexUpperL bs)).data.map lowerChar).length = 10
    rw [List.length_map]
    show (hexUpperL bs).length = 10
    rw [hexUpperL_length, hlen]
  · cases taint <;> simp [buildInitArgs, hasPair]
  · by_cases hrole : role = "server" <;> cases taint <;> simp [buildJoinArgs, hrole, hasPair]

theorem C9_node_name_dns_witness :
    noUpperNoDot (nodeNameFor "Worker1.example.com" [171, 205, 239, 1, 35]) = true ∧
    nodeNameFor "Worker1.example.com" [171, 205, 239, 1, 35] =
      "ip-" ++ replaceDots (toLowerStr "Worker1.example.com") ++ "-" ++
        toLowerStr (hexUpper [171, 205, 239, 1, 35]) ∧
    (toLowerStr (hexUpper [171, 205, 239, 1, 35])).length = 10 ∧
    allLowerHex (toLowerStr (hexUpper [171, 205, 239, 1, 35])) = true ∧
    hasPair "--node-name" (nodeNameFor "Worker1.example.com" [171, 205, 239, 1, 35])
      (buildInitArgs (nodeNameFor "Worker1.example.com" [171, 205, 239, 1, 35])
        "abc123" true) = true ∧
    hasPair "--node-name" (nodeNameFor "Worker1.example.com" [171, 205, 239, 1, 35])
      (buildJoinArgs "worker" (nodeNameFor "Worker1.example.com" [171, 205, 239, 1, 35])
        "10.0.0.5" "abc123" true) = true :=
  C9_node_name_dns "Worker1.example.com" [171, 205, 239, 1, 35] "abc123" "10.0.0.5"
    "worker" true rfl (by decide)

end SchedulerK3s
